import Mathlib

/-!
# Verification of the MutualGuide training/evaluation orchestration

Shallow embedding of the orchestration logic of `train.py` and `test.py`:
checkpoint filename derivation, the training loop's epoch-boundary and
checkpoint behaviour, checkpoint loading, dataset dispatch, and the
evaluation loop's per-class detection accumulation and periodic logging.
Numeric scores are modelled over `ℚ`; Python integers over `ℕ`.
-/

namespace MutualGuide

/-! ## Decimal rendering of naturals

`"{}".format(n)` in Python renders a nonnegative integer in decimal, which is
exactly Lean's `Nat.repr`.  We prove `Nat.repr` injective by exhibiting the
evaluation map on digit lists as a left inverse. -/

/-- Value of a decimal digit character: `'7' ↦ 7`. -/
def digitVal (c : Char) : ℕ := c.toNat - ('0').toNat

/-- Evaluate a list of decimal digit characters to the number they denote. -/
def valDigits : List Char → ℕ
  | [] => 0
  | c :: cs => digitVal c * 10 ^ cs.length + valDigits cs

theorem digitVal_digitChar {k : ℕ} (h : k < 10) : digitVal (Nat.digitChar k) = k := by
  interval_cases k <;> rfl

theorem valDigits_toDigitsCore (fuel : ℕ) :
    ∀ n ds, n < fuel →
      valDigits (Nat.toDigitsCore 10 fuel n ds) = n * 10 ^ ds.length + valDigits ds := by
  induction fuel with
  | zero => intro n ds h; omega
  | succ fuel ih =>
    intro n ds h
    have hmod : n % 10 < 10 := Nat.mod_lt _ (by norm_num)
    simp only [Nat.toDigitsCore]
    by_cases h0 : n / 10 = 0
    · rw [if_pos h0]
      have hn : n % 10 = n := by omega
      simp only [valDigits]
      rw [digitVal_digitChar hmod, hn]
    · rw [if_neg h0]
      have hlt : n / 10 < fuel := by
        have h1 : n / 10 < n := Nat.div_lt_self (by omega) (by norm_num)
        omega
      rw [ih (n / 10) (Nat.digitChar (n % 10) :: ds) hlt]
      simp only [valDigits, List.length_cons, digitVal_digitChar hmod]
      conv_rhs => rw [← Nat.div_add_mod n 10]
      ring

theorem valDigits_toDigits (n : ℕ) : valDigits (Nat.toDigits 10 n) = n := by
  have := valDigits_toDigitsCore (n + 1) n [] (by omega)
  simpa [Nat.toDigits, valDigits] using this

theorem Nat_repr_injective : Function.Injective Nat.repr := by
  intro m n h
  have hd : Nat.toDigits 10 m = Nat.toDigits 10 n := by
    have : (Nat.toDigits 10 m).asString.data = (Nat.toDigits 10 n).asString.data := by
      rw [show (Nat.toDigits 10 m).asString = Nat.repr m from rfl,
        show (Nat.toDigits 10 n).asString = Nat.repr n from rfl, h]
    simpa [List.asString] using this
  calc m = valDigits (Nat.toDigits 10 m) := (valDigits_toDigits m).symm
    _ = valDigits (Nat.toDigits 10 n) := by rw [hd]
    _ = n := valDigits_toDigits n

/-! ## Run configuration and checkpoint filenames

`train.py` resolves `args` once from argparse + YAML; the fields entering the
checkpoint filename are dataset, neck, backbone, image_size, anchor_size,
mutual_guide, save_folder. -/

/-- The configuration fields of `args` used by checkpointing (train.py / test.py). -/
structure RunConfig where
  dataset : String
  neck : String
  backbone : String
  image_size : ℕ
  anchor_size : ℕ
  mutual_guide : Bool
  save_folder : String
  deriving DecidableEq, Repr

/-- train.py line 67: `"combined" if args.mutual_guide else "Retina"`. -/
def lossTagTrain (mutual_guide : Bool) : String :=
  if mutual_guide then "combined" else "Retina"

/-- test.py line 86: the loss-mode slot is filled with `args.mutual_guide`
itself; Python's `str.format` renders the bool as `"True"` / `"False"`. -/
def boolPyStr (b : Bool) : String :=
  if b then "True" else "False"

/-- train.py lines 59-70: the checkpoint filename
`"{}_{}_{}_size{}_anchor{}_{}_{}.pth"` written by `save_model`. -/
def save_model_filename (cfg : RunConfig) (suffix : String) : String :=
  cfg.dataset ++ "_" ++ cfg.neck ++ "_" ++ cfg.backbone ++ "_size" ++
    Nat.repr cfg.image_size ++ "_anchor" ++ Nat.repr cfg.anchor_size ++ "_" ++
    lossTagTrain cfg.mutual_guide ++ "_" ++ suffix ++ ".pth"

/-- train.py `save_model`: full save path, `os.path.join(args.save_folder, name)`. -/
def save_model_path (cfg : RunConfig) (suffix : String) : String :=
  cfg.save_folder ++ "/" ++ save_model_filename cfg suffix

/-- test.py lines 76-88: the default trained-model filename derived when
`--trained_model` is not given: `"{}_{}_{}_size{}_anchor{}_{}_Final.pth"`,
with the loss slot rendered from the raw boolean `args.mutual_guide`. -/
def default_trained_model_filename (cfg : RunConfig) : String :=
  cfg.dataset ++ "_" ++ cfg.neck ++ "_" ++ cfg.backbone ++ "_size" ++
    Nat.repr cfg.image_size ++ "_anchor" ++ Nat.repr cfg.anchor_size ++ "_" ++
    boolPyStr cfg.mutual_guide ++ "_Final.pth"

/-- test.py: full default path `os.path.join(args.save_folder, ...)`. -/
def default_trained_model_path (cfg : RunConfig) : String :=
  cfg.save_folder ++ "/" ++ default_trained_model_filename cfg

/-! ## The training loop (train.py 150-205)

`for iteration in range(start_iter, end_iter)`; on `iteration % epoch_size
== 0` the body saves a CKPT checkpoint from the EMA weights, rebuilds the
shuffled loader wrapped in the prefetcher and switches the model to train
mode; every iteration then adjusts the learning rate, fetches a batch,
runs the mixed-precision forward/backward/step and updates the EMA copy.
After the loop, `save_model(ema_model.ema, iteration, "Final")` saves the
final checkpoint with the last value of the loop variable. -/

/-- Which parameter set a checkpoint is saved from: the EMA shadow copy
(`ema_model.ema`) or the live model. -/
inductive WeightsKind
  | ema
  | live
  deriving DecidableEq, Repr

/-- One call to `save_model`: which weights, the `iteration` argument
stored into the checkpoint dict, and the filename suffix. -/
structure SaveEvent where
  weights : WeightsKind
  iteration : ℕ
  suffix : String
  deriving DecidableEq, Repr

/-- The values taken by the loop variable of
`for iteration in range(start_iter, end_iter)`. -/
def loopIterations (start_iter end_iter : ℕ) : List ℕ :=
  List.range' start_iter (end_iter - start_iter)

/-- All `save_model` calls of one training run (train.py 150-205): a CKPT
save from the EMA weights at every executed iteration with
`iteration % epoch_size == 0`, then the Final save from the EMA weights
with the loop variable's last value.  When the loop body never ran, the
name `iteration` is unbound at line 205 and the run dies with a
NameError, modelled as `none`. -/
def trainRunSaves (epoch_size start_iter end_iter : ℕ) : Option (List SaveEvent) :=
  let iters := loopIterations start_iter end_iter
  let ckpts := iters.filterMap
    (fun i => if i % epoch_size = 0 then some ⟨.ema, i, "CKPT"⟩ else none)
  match iters.getLast? with
  | some last => some (ckpts ++ [⟨.ema, last, "Final"⟩])
  | none => none

/-- The stored iteration field of the Final checkpoint of a run. -/
def final_saved_iteration (epoch_size start_iter end_iter : ℕ) : Option ℕ :=
  (trainRunSaves epoch_size start_iter end_iter).bind fun saves =>
    saves.getLast?.map (·.iteration)

/-- train.py 127-134 + 150: resuming from a checkpoint whose stored
iteration is `stored_iteration` sets `start_iter` to it, and the loop
then executes `len(range(start_iter, end_iter))` further iterations. -/
def resume_executed_iterations (stored_iteration end_iter : ℕ) : ℕ :=
  (loopIterations stored_iteration end_iter).length

/-- The individually observable actions of one iteration of the loop body. -/
inductive TrainEvent
  | saveCkpt (w : WeightsKind) (iteration : ℕ) (suffix : String)
  | createPrefetcher
  | setTrainMode
  | adjustLR (iteration : ℕ)
  | fetchBatch
  | forwardBackwardStep
  | emaUpdate
  deriving DecidableEq, Repr

/-- Python `%` on integers: raises ZeroDivisionError when the modulus is
zero. -/
def pyMod (a b : ℕ) : Option ℕ :=
  if b = 0 then none else some (a % b)

/-- train.py 151-186: the ordered events of the loop body at a given
iteration (on the path where the prefetcher is bound).  The
epoch-boundary block (save CKPT from EMA, build the prefetcher, set train
mode) runs exactly when `iteration % epoch_size == 0`, before the
learning-rate adjustment and the batch fetch; the `%` itself raises when
`epoch_size == 0` (`none`). -/
def iterationEvents (epoch_size iteration : ℕ) : Option (List TrainEvent) :=
  (pyMod iteration epoch_size).map fun r =>
    (if r = 0 then
        [.saveCkpt .ema iteration "CKPT", .createPrefetcher, .setTrainMode]
      else []) ++
    [.adjustLR iteration, .fetchBatch, .forwardBackwardStep, .emaUpdate]

/-- The loop body at one iteration, tracking whether the Python name
`prefetcher` is bound.  The epoch-boundary block binds it; the call
`prefetcher.next()` on an unbound name raises NameError, modelled as
`Except.error` carrying the events performed before the failure (the
learning-rate adjustment at line 169 has already run). -/
def loopIterStep (epoch_size iteration : ℕ) (prefetcherBound : Bool) :
    Except (List TrainEvent) (Bool × List TrainEvent) :=
  match pyMod iteration epoch_size with
  | none => .error []
  | some r =>
    let boundary := r = 0
    let preEvents : List TrainEvent :=
      if boundary then [.saveCkpt .ema iteration "CKPT", .createPrefetcher, .setTrainMode]
      else []
    let bound : Bool := prefetcherBound || decide boundary
    if bound then
      .ok (bound,
        preEvents ++ [.adjustLR iteration, .fetchBatch, .forwardBackwardStep, .emaUpdate])
    else
      .error (preEvents ++ [.adjustLR iteration])

/-- Run the training loop over a list of iteration indices, threading the
prefetcher-binding state and accumulating events; an error aborts the run
with the events performed up to the failure. -/
def runTrainLoop (epoch_size : ℕ) (prefetcherBound : Bool) :
    List ℕ → Except (List TrainEvent) (Bool × List TrainEvent)
  | [] => .ok (prefetcherBound, [])
  | i :: rest =>
    match loopIterStep epoch_size i prefetcherBound with
    | .error evs => .error evs
    | .ok (b, evs) =>
      match runTrainLoop epoch_size b rest with
      | .error evs2 => .error (evs ++ evs2)
      | .ok (b2, evs2) => .ok (b2, evs ++ evs2)

/-! ## Checkpoint loading (train.py 127-132, test.py 89-90) -/

/-- A persisted checkpoint dict as produced by `torch.save`: each of the
three keys may be present or absent.  Model weights and optimizer state
are opaque tokens. -/
structure StoredCheckpoint where
  model : Option ℕ
  optimizer : Option ℕ
  iteration : Option ℕ
  deriving DecidableEq, Repr

/-- train.py 129-132: resuming reads `state_dict["model"]`,
`state_dict["optimizer"]` and `state_dict["iteration"]` in that order; a
missing key raises KeyError (`none`); otherwise all three are returned
verbatim. -/
def train_resume_load (c : StoredCheckpoint) : Option (ℕ × ℕ × ℕ) := do
  let m ← c.model
  let o ← c.optimizer
  let i ← c.iteration
  return (m, o, i)

/-- test.py 89-90: evaluation reads only `state_dict["model"]`; the
optimizer and iteration keys are never touched. -/
def test_load_weights (c : StoredCheckpoint) : Option ℕ :=
  c.model

/-! ## Dataset dispatch (train.py 96-105, test.py 57-64) -/

/-- The dataset object constructed by train.py's dispatch. -/
inductive TrainDataset
  | coco2017train
  | voc0712trainval
  | xmlTrain
  deriving DecidableEq, Repr

/-- The dataset object constructed by test.py's dispatch. -/
inductive TestDataset
  | coco2017val
  | voc2007test
  | xmlVal
  deriving DecidableEq, Repr

/-- train.py 96-105: the if/elif chain on `args.dataset`; any other value
raises `NotImplementedError("ERROR: Unkown dataset {}".format(args.dataset))`. -/
def train_select_dataset (dataset : String) : Except String TrainDataset :=
  if dataset = "COCO" then .ok .coco2017train
  else if dataset = "VOC" then .ok .voc0712trainval
  else if dataset = "XML" then .ok .xmlTrain
  else .error ("ERROR: Unkown dataset " ++ dataset)

/-- test.py 57-64: the if/elif chain on `args.dataset`; any other value
raises `NotImplementedError("Unkown dataset {}!".format(args.dataset))`. -/
def test_select_dataset (dataset : String) : Except String TestDataset :=
  if dataset = "COCO" then .ok .coco2017val
  else if dataset = "VOC" then .ok .voc2007test
  else if dataset = "XML" then .ok .xmlVal
  else .error ("Unkown dataset " ++ dataset ++ "!")

/-- The classes of work an entry point performs after dataset dispatch. -/
inductive WorkItem
  | modelConstruction
  | checkpointing
  | trainingWork
  | evaluationWork
  deriving DecidableEq, Repr

/-- train.py __main__: the dataset dispatch (lines 96-105) precedes the
Detector construction (line 110), all checkpoint saving/loading and the
training loop; an unknown dataset aborts the process there, so no work
item is ever reached. -/
def train_main_work (dataset : String) : Except String (List WorkItem) := do
  let _ ← train_select_dataset dataset
  return [.modelConstruction, .checkpointing, .trainingWork]

/-- test.py __main__: the dataset dispatch (lines 57-64) precedes the
Detector construction (line 67), the weight loading and the evaluation
loop; an unknown dataset aborts the process there. -/
def test_main_work (dataset : String) : Except String (List WorkItem) := do
  let _ ← test_select_dataset dataset
  return [.modelConstruction, .checkpointing, .evaluationWork]

/-! ## Per-class detection accumulation (test.py 105, 141-146) -/

/-- Entry `j` of one score row, i.e. `scores[k, j]`. -/
def classScore (s : List ℚ) (j : ℕ) : ℚ :=
  s.getD j 0

/-- test.py 141-146: the value written to `all_boxes[j][i]` for one image:
`inds = np.where(scores[:, j] > args.eval_thresh)[0]`; an empty (0, 5)
array when no index qualifies, else
`np.hstack((boxes[inds], scores[inds, j:j+1]))` — the qualifying box rows
each extended by their class-`j` score. -/
def all_boxes_entry (boxes scores : List (List ℚ)) (j : ℕ) (eval_thresh : ℚ) :
    List (List ℚ) :=
  ((boxes.zip scores).filter (fun p => eval_thresh < classScore p.2 j)).map
    (fun p => p.1 ++ [classScore p.2 j])

/-- The post-processed detector output on one image: decoded box rows and
per-detection score rows (`post_process` returns arrays of shape (N, 4)
and (N, num_classes)). -/
structure ImageDetections where
  boxes : List (List ℚ)
  scores : List (List ℚ)
  deriving DecidableEq, Repr

/-- The `all_boxes` structure: class index and image index to the cell
content, `none` for a cell still holding Python's None. -/
def AllBoxes : Type :=
  ℕ → ℕ → Option (List (List ℚ))

/-- test.py 105: `all_boxes = [[None for _ in range(num_images)] for _ in
range(testset.num_classes)]`. -/
def init_all_boxes : AllBoxes :=
  fun _ _ => none

/-- The assignment `all_boxes[j][i] = v`. -/
def writeCell (ab : AllBoxes) (j i : ℕ) (v : List (List ℚ)) : AllBoxes :=
  fun j' i' => if j' = j ∧ i' = i then some v else ab j' i'

/-- test.py 141-146: the inner `for j in range(testset.num_classes)` loop
for image `i`. -/
def accumulate_image (num_classes : ℕ) (det : ImageDetections) (eval_thresh : ℚ)
    (i : ℕ) (ab : AllBoxes) : AllBoxes :=
  (List.range num_classes).foldl
    (fun ab' j => writeCell ab' j i (all_boxes_entry det.boxes det.scores j eval_thresh)) ab

/-- test.py 113-147 (the accumulation part of the evaluation loop): the
outer `for i in range(num_images)` loop over the per-image post-processed
outputs, starting from the all-None structure. -/
def eval_accumulate (dets : List ImageDetections) (num_classes : ℕ)
    (eval_thresh : ℚ) : AllBoxes :=
  (List.range dets.length).foldl
    (fun ab i => accumulate_image num_classes (dets.getD i ⟨[], []⟩) eval_thresh i ab)
    init_all_boxes

/-- The trace of cell assignments `(j, i)` performed by the evaluation
loop, in execution order. -/
def accumulate_writes (num_images num_classes : ℕ) : List (ℕ × ℕ) :=
  (List.range num_images).flatMap (fun i => (List.range num_classes).map (fun j => (j, i)))

/-! ## Periodic evaluation logging (test.py 203-210) -/

/-- The two latency accumulators `_t["im_detect"]` and `_t["im_nms"]`. -/
structure EvalTimers where
  im_detect : ℚ
  im_nms : ℚ
  deriving DecidableEq, Repr

/-- test.py 203-210: the logging step at the end of the body for image
`i`: evaluate `i % math.floor(num_images / 10) == 0 and i > 0` (the `%`
raises ZeroDivisionError when `math.floor(num_images / 10) == 0`, i.e.
when `num_images < 10`, before the `and` can look at `i > 0`); when the
condition holds, print the report and clear both timers.  Returns `none`
on the exception, else the timers after the step and whether a report was
emitted. -/
def eval_logging_step (num_images i : ℕ) (t : EvalTimers) : Option (EvalTimers × Bool) :=
  match pyMod i (num_images / 10) with
  | none => none
  | some r => if r = 0 ∧ 0 < i then some (⟨0, 0⟩, true) else some (t, false)

/-! ## Concrete configurations used to instantiate the theorems -/

/-- A concrete run configuration. -/
def cfgA : RunConfig :=
  ⟨"VOC", "fpn", "resnet18", 320, 3, true, "weights"⟩

/-- Same experiment fields as `cfgA`, different save folder. -/
def cfgB : RunConfig :=
  ⟨"VOC", "fpn", "resnet18", 320, 3, true, "other"⟩

end MutualGuide

namespace MutualGuide

/-! ## Claims -/

/-- C1: train.py's `save_model` renders the loss-mode slot as
`"combined"`/`"Retina"` while test.py's default trained-model path
renders the raw boolean as `"True"`/`"False"`, so for every run
configuration the filename written with suffix Final differs from the
default filename evaluation derives: evaluation never loads the file
training produced. -/
theorem C1_trained_model_filename_mismatch :
    (∀ cfg : RunConfig,
      save_model_filename cfg "Final" ≠ default_trained_model_filename cfg) ∧
    save_model_filename cfgA "Final" = "VOC_fpn_resnet18_size320_anchor3_combined_Final.pth" ∧
    default_trained_model_filename cfgA = "VOC_fpn_resnet18_size320_anchor3_True_Final.pth" := by
  refine ⟨fun cfg h => ?_, rfl, rfl⟩
  have hd := congrArg String.data h
  simp only [save_model_filename, default_trained_model_filename, String.data_append,
    List.append_assoc] at hd
  replace hd := List.append_cancel_left hd
  replace hd := List.append_cancel_left hd
  replace hd := List.append_cancel_left hd
  replace hd := List.append_cancel_left hd
  replace hd := List.append_cancel_left hd
  replace hd := List.append_cancel_left hd
  replace hd := List.append_cancel_left hd
  replace hd := List.append_cancel_left hd
  replace hd := List.append_cancel_left hd
  replace hd := List.append_cancel_left hd
  rcases hb : cfg.mutual_guide <;> rw [hb] at hd <;>
    simp only [lossTagTrain, boolPyStr, if_true, if_false, Bool.false_eq_true] at hd <;>
      exact absurd hd (by decide)

/-- C6: the checkpoint filename is a deterministic function of
{dataset, neck, backbone, image_size, anchor_size, mutual_guide} and the
suffix (the save folder does not enter it), and changing exactly one of
the six fields while the other five stay fixed changes the filename. -/
theorem C6_filename_deterministic_and_field_injective :
    (∀ cfg cfg' : RunConfig, ∀ suffix : String,
      cfg.dataset = cfg'.dataset → cfg.neck = cfg'.neck → cfg.backbone = cfg'.backbone →
      cfg.image_size = cfg'.image_size → cfg.anchor_size = cfg'.anchor_size →
      cfg.mutual_guide = cfg'.mutual_guide →
      save_model_filename cfg suffix = save_model_filename cfg' suffix) ∧
    (∀ cfg cfg' : RunConfig, ∀ suffix : String,
      cfg.neck = cfg'.neck → cfg.backbone = cfg'.backbone →
      cfg.image_size = cfg'.image_size → cfg.anchor_size = cfg'.anchor_size →
      cfg.mutual_guide = cfg'.mutual_guide → cfg.dataset ≠ cfg'.dataset →
      save_model_filename cfg suffix ≠ save_model_filename cfg' suffix) ∧
    (∀ cfg cfg' : RunConfig, ∀ suffix : String,
      cfg.dataset = cfg'.dataset → cfg.backbone = cfg'.backbone →
      cfg.image_size = cfg'.image_size → cfg.anchor_size = cfg'.anchor_size →
      cfg.mutual_guide = cfg'.mutual_guide → cfg.neck ≠ cfg'.neck →
      save_model_filename cfg suffix ≠ save_model_filename cfg' suffix) ∧
    (∀ cfg cfg' : RunConfig, ∀ suffix : String,
      cfg.dataset = cfg'.dataset → cfg.neck = cfg'.neck →
      cfg.image_size = cfg'.image_size → cfg.anchor_size = cfg'.anchor_size →
      cfg.mutual_guide = cfg'.mutual_guide → cfg.backbone ≠ cfg'.backbone →
      save_model_filename cfg suffix ≠ save_model_filename cfg' suffix) ∧
    (∀ cfg cfg' : RunConfig, ∀ suffix : String,
      cfg.dataset = cfg'.dataset → cfg.neck = cfg'.neck → cfg.backbone = cfg'.backbone →
      cfg.anchor_size = cfg'.anchor_size → cfg.mutual_guide = cfg'.mutual_guide →
      cfg.image_size ≠ cfg'.image_size →
      save_model_filename cfg suffix ≠ save_model_filename cfg' suffix) ∧
    (∀ cfg cfg' : RunConfig, ∀ suffix : String,
      cfg.dataset = cfg'.dataset → cfg.neck = cfg'.neck → cfg.backbone = cfg'.backbone →
      cfg.image_size = cfg'.image_size → cfg.mutual_guide = cfg'.mutual_guide →
      cfg.anchor_size ≠ cfg'.anchor_size →
      save_model_filename cfg suffix ≠ save_model_filename cfg' suffix) ∧
    (∀ cfg cfg' : RunConfig, ∀ suffix : String,
      cfg.dataset = cfg'.dataset → cfg.neck = cfg'.neck → cfg.backbone = cfg'.backbone →
      cfg.image_size = cfg'.image_size → cfg.anchor_size = cfg'.anchor_size →
      cfg.mutual_guide ≠ cfg'.mutual_guide →
      save_model_filename cfg suffix ≠ save_model_filename cfg' suffix) := by
  refine ⟨?_, ?_, ?_, ?_, ?_, ?_, ?_⟩
  · intro cfg cfg' suffix h1 h2 h3 h4 h5 h6
    simp only [save_model_filename, h1, h2, h3, h4, h5, h6]
  · intro cfg cfg' suffix h2 h3 h4 h5 h6 hne h
    apply hne
    have hd := congrArg String.data h
    simp only [save_model_filename, String.data_append, List.append_assoc,
      h2, h3, h4, h5, h6] at hd
    exact String.ext (List.append_cancel_right hd)
  · intro cfg cfg' suffix h1 h3 h4 h5 h6 hne h
    apply hne
    have hd := congrArg String.data h
    simp only [save_model_filename, String.data_append, List.append_assoc,
      h1, h3, h4, h5, h6] at hd
    replace hd := List.append_cancel_left hd
    replace hd := List.append_cancel_left hd
    exact String.ext (List.append_cancel_right hd)
  · intro cfg cfg' suffix h1 h2 h4 h5 h6 hne h
    apply hne
    have hd := congrArg String.data h
    simp only [save_model_filename, String.data_append, List.append_assoc,
      h1, h2, h4, h5, h6] at hd
    replace hd := List.append_cancel_left hd
    replace hd := List.append_cancel_left hd
    replace hd := List.append_cancel_left hd
    replace hd := List.append_cancel_left hd
    exact String.ext (List.append_cancel_right hd)
  · intro cfg cfg' suffix h1 h2 h3 h5 h6 hne h
    apply hne
    have hd := congrArg String.data h
    simp only [save_model_filename, String.data_append, List.append_assoc,
      h1, h2, h3, h5, h6] at hd
    replace hd := List.append_cancel_left hd
    replace hd := List.append_cancel_left hd
    replace hd := List.append_cancel_left hd
    replace hd := List.append_cancel_left hd
    replace hd := List.append_cancel_left hd
    replace hd := List.append_cancel_left hd
    exact Nat_repr_injective (String.ext (List.append_cancel_right hd))
  · intro cfg cfg' suffix h1 h2 h3 h4 h6 hne h
    apply hne
    have hd := congrArg String.data h
    simp only [save_model_filename, String.data_append, List.append_assoc,
      h1, h2, h3, h4, h6] at hd
    replace hd := List.append_cancel_left hd
    replace hd := List.append_cancel_left hd
    replace hd := List.append_cancel_left hd
    replace hd := List.append_cancel_left hd
    replace hd := List.append_cancel_left hd
    replace hd := List.append_cancel_left hd
    replace hd := List.append_cancel_left hd
    replace hd := List.append_cancel_left hd
    exact Nat_repr_injective (String.ext (List.append_cancel_right hd))
  · intro cfg cfg' suffix h1 h2 h3 h4 h5 hne h
    apply hne
    have hd := congrArg String.data h
    simp only [save_model_filename, String.data_append, List.append_assoc,
      h1, h2, h3, h4, h5] at hd
    replace hd := List.append_cancel_left hd
    replace hd := List.append_cancel_left hd
    replace hd := List.append_cancel_left hd
    replace hd := List.append_cancel_left hd
    replace hd := List.append_cancel_left hd
    replace hd := List.append_cancel_left hd
    replace hd := List.append_cancel_left hd
    replace hd := List.append_cancel_left hd
    replace hd := List.append_cancel_left hd
    replace hd := List.append_cancel_left hd
    have htag : lossTagTrain cfg.mutual_guide = lossTagTrain cfg'.mutual_guide :=
      String.ext (List.append_cancel_right hd)
    revert htag
    rcases cfg.mutual_guide <;> rcases cfg'.mutual_guide <;> simp_all [lossTagTrain]

/-- C6 witness: concrete instances — same six fields but different save
folders give the same filename; changing each single field changes it. -/
theorem C6_witness :
    save_model_filename cfgA "CKPT" = save_model_filename cfgB "CKPT" ∧
    save_model_filename ⟨"COCO", "fpn", "resnet18", 320, 3, true, "weights"⟩ "CKPT" ≠
      save_model_filename cfgA "CKPT" ∧
    save_model_filename ⟨"VOC", "pafpn", "resnet18", 320, 3, true, "weights"⟩ "CKPT" ≠
      save_model_filename cfgA "CKPT" ∧
    save_model_filename ⟨"VOC", "fpn", "vgg16", 320, 3, true, "weights"⟩ "CKPT" ≠
      save_model_filename cfgA "CKPT" ∧
    save_model_filename ⟨"VOC", "fpn", "resnet18", 512, 3, true, "weights"⟩ "CKPT" ≠
      save_model_filename cfgA "CKPT" ∧
    save_model_filename ⟨"VOC", "fpn", "resnet18", 320, 5, true, "weights"⟩ "CKPT" ≠
      save_model_filename cfgA "CKPT" ∧
    save_model_filename ⟨"VOC", "fpn", "resnet18", 320, 3, false, "weights"⟩ "CKPT" ≠
      save_model_filename cfgA "CKPT" := by
  obtain ⟨hdet, hds, hnk, hbb, hsz, han, hmg⟩ := C6_filename_deterministic_and_field_injective
  exact ⟨hdet cfgA cfgB "CKPT" rfl rfl rfl rfl rfl rfl,
    hds _ cfgA "CKPT" rfl rfl rfl rfl rfl (by decide),
    hnk _ cfgA "CKPT" rfl rfl rfl rfl rfl (by decide),
    hbb _ cfgA "CKPT" rfl rfl rfl rfl rfl (by decide),
    hsz _ cfgA "CKPT" rfl rfl rfl rfl rfl (by decide),
    han _ cfgA "CKPT" rfl rfl rfl rfl rfl (by decide),
    hmg _ cfgA "CKPT" rfl rfl rfl rfl rfl (by decide)⟩

/-- C7 counterexample: a stored checkpoint holding only the model field.
Evaluation's load (test.py 89-90) succeeds and returns the weights, so it
does not fail when the optimizer and iteration fields are missing —
refuting the claim's "this holds ... when evaluation loads trained
weights".  (Training's resume does fail on the same input.) -/
theorem C7_counterexample :
    test_load_weights ⟨some 7, none, none⟩ = some 7 ∧
    test_load_weights ⟨some 7, none, none⟩ ≠ none ∧
    train_resume_load ⟨some 7, none, none⟩ = none := by
  refine ⟨rfl, ?_, rfl⟩
  decide

/-- C7 amended: training's resume load fails exactly when one of
{model, optimizer, iteration} is missing and otherwise returns all three
verbatim; evaluation's load reads only the model field and returns it
verbatim, regardless of whether optimizer or iteration are present. -/
theorem C7_load_required_fields (c : StoredCheckpoint) :
    (train_resume_load c = none ↔
      (c.model = none ∨ c.optimizer = none ∨ c.iteration = none)) ∧
    (∀ m o i, c.model = some m → c.optimizer = some o → c.iteration = some i →
      train_resume_load c = some (m, o, i)) ∧
    test_load_weights c = c.model := by
  obtain ⟨m, o, i⟩ := c
  refine ⟨?_, ?_, rfl⟩
  · rcases m <;> rcases o <;> rcases i <;>
      simp [train_resume_load, Option.bind]
  · intro m' o' i' hm ho hi
    subst hm; subst ho; subst hi
    rfl

/-- C7 witness: the amended theorem at a fully populated checkpoint and
at the counterexample's partial checkpoint. -/
theorem C7_load_required_fields_witness :
    train_resume_load ⟨some 1, some 2, some 3⟩ = some (1, 2, 3) ∧
    test_load_weights ⟨some 1, some 2, some 3⟩ = some 1 ∧
    train_resume_load ⟨some 1, none, some 3⟩ = none := by
  refine ⟨(C7_load_required_fields ⟨some 1, some 2, some 3⟩).2.1 1 2 3 rfl rfl rfl,
    (C7_load_required_fields ⟨some 1, some 2, some 3⟩).2.2,
    (C7_load_required_fields ⟨some 1, none, some 3⟩).1.mpr (Or.inr (Or.inl rfl))⟩

/-- C8: for every dataset identifier other than COCO, VOC and XML, both
the training entry point (train.py 96-105) and the evaluation entry point
(test.py 57-64) abort with an error message naming the unknown dataset,
and no model construction, checkpointing, training or evaluation work is
performed. -/
theorem C8_unknown_dataset_aborts (d : String)
    (h1 : d ≠ "COCO") (h2 : d ≠ "VOC") (h3 : d ≠ "XML") :
    train_main_work d = .error ("ERROR: Unkown dataset " ++ d) ∧
    test_main_work d = .error ("Unkown dataset " ++ d ++ "!") := by
  constructor <;>
    simp [train_main_work, test_main_work, train_select_dataset, test_select_dataset,
      h1, h2, h3]

/-- C8 witness: the unknown dataset identifier "ImageNet". -/
theorem C8_unknown_dataset_aborts_witness :
    train_main_work "ImageNet" = .error ("ERROR: Unkown dataset " ++ "ImageNet") ∧
    test_main_work "ImageNet" = .error ("Unkown dataset " ++ "ImageNet" ++ "!") :=
  C8_unknown_dataset_aborts "ImageNet" (by decide) (by decide) (by decide)

/-- The last value of the loop variable of a nonempty
`range(start_iter, end_iter)` is `end_iter - 1`. -/
theorem loopIterations_getLast? (start_iter end_iter : ℕ) (h : start_iter < end_iter) :
    (loopIterations start_iter end_iter).getLast? = some (end_iter - 1) := by
  rw [loopIterations, List.getLast?_eq_getElem?, List.length_range', List.getElem?_range']
  · congr 1
    omega
  · omega

/-- C2 counterexample: with epoch_size = 2, start_iter = 0, end_iter = 4
the run terminates normally, but the Final checkpoint's stored iteration
field is 3 = end_iter - 1, not end_iter = 4, and a resume from it
executes one further iteration, not zero. -/
theorem C2_counterexample :
    final_saved_iteration 2 0 4 = some 3 ∧
    final_saved_iteration 2 0 4 ≠ some 4 ∧
    resume_executed_iterations 3 4 = 1 ∧
    resume_executed_iterations 3 4 ≠ 0 := by
  decide

/-- C2 amended: when the loop executed at least one iteration
(start_iter < end_iter), the run's last save is tagged Final, is taken
from the EMA weights, and stores iteration field end_iter - 1 (the last
executed loop index, train.py 205), so a resume from that checkpoint
executes exactly one further iteration, replaying the final one. -/
theorem C2_final_checkpoint (epoch_size start_iter end_iter : ℕ)
    (h : start_iter < end_iter) :
    (trainRunSaves epoch_size start_iter end_iter).map (·.getLast?) =
      some (some ⟨.ema, end_iter - 1, "Final"⟩) ∧
    resume_executed_iterations (end_iter - 1) end_iter = 1 := by
  constructor
  · rw [trainRunSaves]
    simp only [loopIterations_getLast? start_iter end_iter h, Option.map_some']
    rw [List.getLast?_concat]
  · rw [resume_executed_iterations, loopIterations, List.length_range']
    omega

/-- C2 witness: the amended theorem at epoch_size 2, start 0, end 4. -/
theorem C2_final_checkpoint_witness :
    (trainRunSaves 2 0 4).map (·.getLast?) = some (some ⟨.ema, 3, "Final"⟩) ∧
    resume_executed_iterations 3 4 = 1 :=
  C2_final_checkpoint 2 0 4 (by decide)

/-- C5: for a positive epoch_size, an iteration of the loop body performs
the epoch-boundary actions — save a CKPT checkpoint from the EMA weights,
build a fresh prefetched batch iterator, switch the model to train mode,
in that order and all before the batch fetch — exactly when
`iteration % epoch_size == 0`; at every other iteration none of those
actions occur. -/
theorem C5_epoch_boundary_events (epoch_size iteration : ℕ) (h : 0 < epoch_size) :
    (iteration % epoch_size = 0 →
      iterationEvents epoch_size iteration =
        some [.saveCkpt .ema iteration "CKPT", .createPrefetcher, .setTrainMode,
          .adjustLR iteration, .fetchBatch, .forwardBackwardStep, .emaUpdate]) ∧
    (iteration % epoch_size ≠ 0 →
      iterationEvents epoch_size iteration =
        some [.adjustLR iteration, .fetchBatch, .forwardBackwardStep, .emaUpdate]) := by
  constructor <;> intro hb <;>
    simp [iterationEvents, pyMod, Nat.pos_iff_ne_zero.mp h, hb]

/-- C5 witness: epoch_size 2 at the boundary iteration 2 and the
non-boundary iteration 3. -/
theorem C5_epoch_boundary_events_witness :
    iterationEvents 2 2 =
      some [.saveCkpt .ema 2 "CKPT", .createPrefetcher, .setTrainMode,
        .adjustLR 2, .fetchBatch, .forwardBackwardStep, .emaUpdate] ∧
    iterationEvents 2 3 =
      some [.adjustLR 3, .fetchBatch, .forwardBackwardStep, .emaUpdate] :=
  ⟨(C5_epoch_boundary_events 2 2 (by decide)).1 (by decide),
    (C5_epoch_boundary_events 2 3 (by decide)).2 (by decide)⟩

/-- C9: resuming from a stored iteration k with k < end_iter and
k % epoch_size ≠ 0 skips the epoch-boundary block on the first loop
iteration, so the name `prefetcher` is still unbound when
`prefetcher.next()` is reached: the run fails there, the only event
performed being the learning-rate adjustment — no checkpoint save, batch
fetch, forward/backward step or EMA update happens. -/
theorem C9_resume_mid_epoch_crashes (epoch_size k end_iter : ℕ)
    (hes : 0 < epoch_size) (hk : k < end_iter) (hmod : k % epoch_size ≠ 0) :
    runTrainLoop epoch_size false (loopIterations k end_iter) =
      .error [.adjustLR k] := by
  have hcons : loopIterations k end_iter = k :: List.range' (k + 1) (end_iter - k - 1) := by
    rw [loopIterations]
    have hn : end_iter - k = (end_iter - k - 1) + 1 := by omega
    rw [hn, List.range'_succ]
    congr 2
  have hstep : loopIterStep epoch_size k false = .error [.adjustLR k] := by
    simp [loopIterStep, pyMod, Nat.pos_iff_ne_zero.mp hes, hmod]
  rw [hcons, runTrainLoop, hstep]

/-- C9 witness: resume at k = 3 with epoch_size 2 and end_iter 8. -/
theorem C9_resume_mid_epoch_crashes_witness :
    runTrainLoop 2 false (loopIterations 3 8) = .error [.adjustLR 3] :=
  C9_resume_mid_epoch_crashes 2 3 8 (by decide) (by decide) (by decide)

/-- The accumulated entry has one row per score row whose class-j score
beats the threshold. -/
theorem all_boxes_entry_length (boxes scores : List (List ℚ)) (j : ℕ) (t : ℚ)
    (hlen : boxes.length = scores.length) :
    (all_boxes_entry boxes scores j t).length =
      (scores.filter (fun s => t < classScore s j)).length := by
  induction boxes generalizing scores with
  | nil =>
    cases scores with
    | nil => rfl
    | cons s ss => simp at hlen
  | cons b bs ih =>
    cases scores with
    | nil => simp at hlen
    | cons s ss =>
      have hlen' : bs.length = ss.length := by simpa using hlen
      simp only [all_boxes_entry, List.zip_cons_cons, List.filter_cons]
      by_cases hp : t < classScore s j
      · simpa [all_boxes_entry, hp] using ih ss hlen'
      · simpa [all_boxes_entry, hp] using ih ss hlen'

/-- Every row of the accumulated entry is a 4-coordinate box row extended
by its class-j score, which beats the threshold. -/
theorem all_boxes_entry_rows (boxes scores : List (List ℚ)) (j : ℕ) (t : ℚ)
    (hb : ∀ b ∈ boxes, b.length = 4) :
    ∀ row ∈ all_boxes_entry boxes scores j t,
      ∃ b s, row = b ++ [s] ∧ b.length = 4 ∧ t < s := by
  intro row hrow
  simp only [all_boxes_entry, List.mem_map, List.mem_filter] at hrow
  obtain ⟨p, ⟨hpmem, hpfilter⟩, rfl⟩ := hrow
  exact ⟨p.1, classScore p.2 j, rfl, hb p.1 (List.of_mem_zip hpmem).1,
    of_decide_eq_true hpfilter⟩

/-- C3: for every image and class, the cell written into `all_boxes[j][i]`
has exactly one row per detection with `scores[:, j] > eval_thresh`; with
zero qualifying detections it is the empty (0, 5) array, and with n > 0 it
has n rows of length 5 whose fifth column strictly exceeds the threshold. -/
theorem C3_per_class_accumulation (boxes scores : List (List ℚ)) (j : ℕ) (t : ℚ)
    (hlen : boxes.length = scores.length) (hb : ∀ b ∈ boxes, b.length = 4) :
    (all_boxes_entry boxes scores j t).length =
      (scores.filter (fun s => t < classScore s j)).length ∧
    ((scores.filter (fun s => t < classScore s j)).length = 0 →
      all_boxes_entry boxes scores j t = []) ∧
    ∀ row ∈ all_boxes_entry boxes scores j t,
      row.length = 5 ∧ ∃ b s, row = b ++ [s] ∧ b.length = 4 ∧ t < s := by
  refine ⟨all_boxes_entry_length boxes scores j t hlen, ?_, ?_⟩
  · intro h0
    have := all_boxes_entry_length boxes scores j t hlen
    rw [h0] at this
    exact List.length_eq_zero.mp this
  · intro row hrow
    obtain ⟨b, s, rfl, hb4, hs⟩ := all_boxes_entry_rows boxes scores j t hb row hrow
    exact ⟨by simp [hb4], b, s, rfl, hb4, hs⟩

/-- C3 witness: two detections, class 1, threshold 1/4 — one detection
qualifies (score 9/10), one does not (score 1/20). -/
theorem C3_per_class_accumulation_witness :
    (all_boxes_entry [[1, 2, 3, 4], [5, 6, 7, 8]] [[1/10, 9/10], [2/10, 1/20]] 1 (1/4)).length =
      (([[1/10, 9/10], [2/10, 1/20]] : List (List ℚ)).filter
        (fun s => (1/4 : ℚ) < classScore s 1)).length ∧
    ((([[1/10, 9/10], [2/10, 1/20]] : List (List ℚ)).filter
        (fun s => (1/4 : ℚ) < classScore s 1)).length = 0 →
      all_boxes_entry [[1, 2, 3, 4], [5, 6, 7, 8]] [[1/10, 9/10], [2/10, 1/20]] 1 (1/4) = []) ∧
    ∀ row ∈ all_boxes_entry [[1, 2, 3, 4], [5, 6, 7, 8]] [[1/10, 9/10], [2/10, 1/20]] 1 (1/4),
      row.length = 5 ∧ ∃ b s, row = b ++ [s] ∧ b.length = 4 ∧ (1/4 : ℚ) < s :=
  C3_per_class_accumulation [[1, 2, 3, 4], [5, 6, 7, 8]] [[1/10, 9/10], [2/10, 1/20]] 1 (1/4)
    (by decide) (by decide)

/-- C4: with 1 ≤ num_images < 10 the logging condition divides by
`math.floor(num_images / 10) = 0` and raises ZeroDivisionError already on
the very first image (i = 0); with num_images ≥ 10 a report is emitted
exactly when i is a positive multiple of `floor(num_images / 10)`, and
both latency timers are reset to zero immediately after each report (and
left untouched otherwise). -/
theorem C4_periodic_logging (num_images : ℕ) :
    (1 ≤ num_images → num_images < 10 →
      ∀ t : EvalTimers, eval_logging_step num_images 0 t = none) ∧
    (10 ≤ num_images → ∀ (i : ℕ) (t : EvalTimers),
      (eval_logging_step num_images i t = some (⟨0, 0⟩, true) ↔
        0 < i ∧ num_images / 10 ∣ i) ∧
      (¬ (0 < i ∧ num_images / 10 ∣ i) →
        eval_logging_step num_images i t = some (t, false))) := by
  constructor
  · intro h1 h2 t
    have h0 : num_images / 10 = 0 := by omega
    simp [eval_logging_step, pyMod, h0]
  · intro h10 i t
    have hq : num_images / 10 ≠ 0 := by omega
    have hdvd : num_images / 10 ∣ i ↔ i % (num_images / 10) = 0 :=
      Nat.dvd_iff_mod_eq_zero
    have hstep : eval_logging_step num_images i t =
        if i % (num_images / 10) = 0 ∧ 0 < i then some (⟨0, 0⟩, true)
        else some (t, false) := by
      simp [eval_logging_step, pyMod, hq]
    rw [hstep]
    by_cases hc : i % (num_images / 10) = 0 ∧ 0 < i
    · constructor
      · rw [if_pos hc]
        exact ⟨fun _ => ⟨hc.2, hdvd.mpr hc.1⟩, fun _ => rfl⟩
      · intro hnot
        exact absurd ⟨hc.2, hdvd.mpr hc.1⟩ hnot
    · constructor
      · rw [if_neg hc]
        constructor
        · intro h
          exact absurd (congrArg (·.2) (Option.some.inj h)) (by simp)
        · intro ⟨hi, hd⟩
          exact absurd ⟨hdvd.mp hd, hi⟩ hc
      · intro _
        rw [if_neg hc]

/-- C4 witness: num_images = 7 raises on the first image; num_images = 20
reports at i = 2 (= 20/10) resetting the timers, and not at i = 3. -/
theorem C4_periodic_logging_witness :
    eval_logging_step 7 0 ⟨1, 2⟩ = none ∧
    eval_logging_step 20 2 ⟨5, 7⟩ = some (⟨0, 0⟩, true) ∧
    eval_logging_step 20 3 ⟨5, 7⟩ = some (⟨5, 7⟩, false) :=
  ⟨(C4_periodic_logging 7).1 (by norm_num) (by norm_num) ⟨1, 2⟩,
    (((C4_periodic_logging 20).2 (by norm_num) 2 ⟨5, 7⟩).1).mpr ⟨by norm_num, by norm_num⟩,
    ((C4_periodic_logging 20).2 (by norm_num) 3 ⟨5, 7⟩).2 (by norm_num)⟩

/-- Effect of the inner per-class write loop on an arbitrary cell. -/
theorem foldl_writeCell (i : ℕ) (e : ℕ → List (List ℚ)) :
    ∀ (L : List ℕ) (ab : AllBoxes) (j' i' : ℕ),
      (L.foldl (fun ab' j => writeCell ab' j i (e j)) ab) j' i' =
        if j' ∈ L ∧ i' = i then some (e j') else ab j' i' := by
  intro L
  induction L with
  | nil =>
    intro ab j' i'
    simp
  | cons j L ih =>
    intro ab j' i'
    rw [List.foldl_cons, ih]
    by_cases h1 : j' ∈ L ∧ i' = i
    · rw [if_pos h1, if_pos ⟨List.mem_cons_of_mem j h1.1, h1.2⟩]
    · rw [if_neg h1]
      simp only [writeCell]
      by_cases h2 : j' = j ∧ i' = i
      · rw [if_pos h2, if_pos ⟨by rw [h2.1]; exact List.mem_cons_self j L, h2.2⟩, h2.1]
      · have hno : ¬ (j' ∈ j :: L ∧ i' = i) := by
          intro ⟨hm, hi⟩
          rcases List.mem_cons.mp hm with h | h
          · exact h2 ⟨h, hi⟩
          · exact h1 ⟨h, hi⟩
        rw [if_neg h2, if_neg hno]

/-- Effect of the outer per-image loop on an arbitrary cell. -/
theorem foldl_accumulate_image (C : ℕ) (t : ℚ) (det : ℕ → ImageDetections) :
    ∀ (L : List ℕ) (ab : AllBoxes) (j' i' : ℕ),
      (L.foldl (fun ab i => accumulate_image C (det i) t i ab) ab) j' i' =
        if i' ∈ L ∧ j' < C then
          some (all_boxes_entry (det i').boxes (det i').scores j' t)
        else ab j' i' := by
  intro L
  induction L with
  | nil =>
    intro ab j' i'
    simp
  | cons i L ih =>
    intro ab j' i'
    rw [List.foldl_cons, ih]
    by_cases h1 : i' ∈ L ∧ j' < C
    · rw [if_pos h1, if_pos ⟨List.mem_cons_of_mem i h1.1, h1.2⟩]
    · rw [if_neg h1]
      simp only [accumulate_image]
      rw [foldl_writeCell i
        (fun j => all_boxes_entry (det i).boxes (det i).scores j t) (List.range C) ab j' i']
      by_cases h2 : j' < C ∧ i' = i
      · obtain ⟨hjC, rfl⟩ := h2
        rw [if_pos ⟨List.mem_range.mpr hjC, rfl⟩,
          if_pos ⟨List.mem_cons_self _ _, hjC⟩]
      · have hr : ¬ (j' ∈ List.range C ∧ i' = i) := by
          intro ⟨hm, hi⟩
          exact h2 ⟨List.mem_range.mp hm, hi⟩
        have hl : ¬ (i' ∈ i :: L ∧ j' < C) := by
          intro ⟨hm, hj⟩
          rcases List.mem_cons.mp hm with h | h
          · exact h2 ⟨hj, h⟩
          · exact h1 ⟨h, hj⟩
        rw [if_neg hr, if_neg hl]

/-- The content of a cell after the whole accumulation loop. -/
theorem eval_accumulate_cell (dets : List ImageDetections) (C : ℕ) (t : ℚ) (j i : ℕ) :
    eval_accumulate dets C t j i =
      if i < dets.length ∧ j < C then
        some (all_boxes_entry (dets.getD i ⟨[], []⟩).boxes (dets.getD i ⟨[], []⟩).scores j t)
      else none := by
  rw [eval_accumulate, foldl_accumulate_image C t (fun i => dets.getD i ⟨[], []⟩)
    (List.range dets.length) init_all_boxes j i]
  simp only [List.mem_range, init_all_boxes]

/-- Count of one pair in the inner per-class write trace of one image. -/
theorem count_range_map_pair (j i i0 : ℕ) :
    ∀ C, ((List.range C).map (fun k => (k, i0))).count (j, i) =
      if j < C ∧ i = i0 then 1 else 0 := by
  intro C
  induction C with
  | zero => simp
  | succ C ih =>
    rw [List.range_succ, List.map_append, List.count_append, ih]
    simp only [List.map_cons, List.map_nil, List.count_cons, List.count_nil, beq_iff_eq,
      Prod.mk.injEq]
    split_ifs <;> omega

/-- Each in-range cell (j, i) is written exactly once by the loop. -/
theorem count_accumulate_writes (C j i : ℕ) (hj : j < C) :
    ∀ N, i < N → (accumulate_writes N C).count (j, i) = 1 := by
  intro N
  induction N with
  | zero =>
    intro h
    omega
  | succ N ih =>
    intro hi
    rw [accumulate_writes, List.range_succ, List.flatMap_append, List.count_append]
    have hfold : (List.range N).flatMap (fun i => (List.range C).map (fun j => (j, i))) =
        accumulate_writes N C := rfl
    rw [hfold]
    simp only [List.flatMap_cons, List.flatMap_nil, List.append_nil]
    rw [count_range_map_pair]
    rcases Nat.lt_or_ge i N with h | h
    · rw [ih h, if_neg (by omega)]
    · have hiN : i = N := by omega
      have hzero : (accumulate_writes N C).count (j, i) = 0 := by
        rw [List.count_eq_zero]
        intro hmem
        simp only [accumulate_writes, List.mem_flatMap, List.mem_map, List.mem_range] at hmem
        obtain ⟨i', hi', j', _, heq⟩ := hmem
        have : i = i' := (Prod.mk.injEq _ _ _ _ ▸ heq).2.symm ▸ rfl
        omega
      rw [hzero, if_pos ⟨hj, hiN⟩]

/-- C10: after the evaluation loop, every cell all_boxes[j][i] with
j < num_classes and i < num_images has been assigned exactly once and
holds a list of 5-column rows; no cell of the initially all-None
structure remains None. -/
theorem C10_all_cells_assigned (dets : List ImageDetections) (num_classes : ℕ) (t : ℚ)
    (hwf : ∀ d ∈ dets, ∀ b ∈ d.boxes, b.length = 4) :
    ∀ j, j < num_classes → ∀ i, i < dets.length →
      eval_accumulate dets num_classes t j i ≠ none ∧
      (∀ rows, eval_accumulate dets num_classes t j i = some rows →
        ∀ row ∈ rows, row.length = 5) ∧
      (accumulate_writes dets.length num_classes).count (j, i) = 1 := by
  intro j hj i hi
  have hcell := eval_accumulate_cell dets num_classes t j i
  rw [if_pos ⟨hi, hj⟩] at hcell
  refine ⟨by rw [hcell]; exact Option.some_ne_none _, ?_,
    count_accumulate_writes num_classes j i hj dets.length hi⟩
  intro rows hrows row hrow
  rw [hcell] at hrows
  have hd : dets.getD i ⟨[], []⟩ ∈ dets := by
    rw [List.getD_eq_getElem?_getD, List.getElem?_eq_getElem hi]
    exact List.getElem_mem hi
  obtain ⟨b, s, rfl, hb4, _⟩ :=
    all_boxes_entry_rows _ _ j t (hwf _ hd) row (Option.some.inj hrows ▸ hrow)
  simp [hb4]

/-- C10 witness: one image with one 4-coordinate box and one class. -/
theorem C10_all_cells_assigned_witness :
    eval_accumulate [⟨[[1, 2, 3, 4]], [[1/2]]⟩] 1 0 0 0 ≠ none ∧
    (∀ rows, eval_accumulate [⟨[[1, 2, 3, 4]], [[1/2]]⟩] 1 0 0 0 = some rows →
      ∀ row ∈ rows, row.length = 5) ∧
    (accumulate_writes 1 1).count (0, 0) = 1 :=
  C10_all_cells_assigned [⟨[[1, 2, 3, 4]], [[1/2]]⟩] 1 0
    (by intro d hd b hb; simp at hd; simp [hd] at hb; simp [hb])
    0 (by norm_num) 0 (by norm_num)

end MutualGuide
